import Mathlib

/-!
Verification development for the task-roadmap core of this repository.

The definitions below are a shallow embedding of the two densest modules:
  * `src/unnamed/part_005` — `TaskIntelligence` (task selection, scoring,
    strategy evolution, `parseTimeToMinutes`);
  * `src/unnamed/part_004` — `HtaTreeBuilder` (strategic branch generation
    and per-branch frontier-node generation).

Modelling conventions:
  * JavaScript numbers that the code only ever treats as integers are
    modelled as `Nat`/`Int`.  The float literals `1.2`, `0.8` and `0.5`
    used in comparisons against integer quantities are modelled by the
    exact rational comparisons `5*a ≤ 6*b`, `4*a ≤ 5*b`, `a ≤ 2*b`; for the
    integer magnitudes produced by `parseTimeToMinutes` the IEEE-754
    comparison and the rational comparison agree.
  * JavaScript `x || default` (falsy coalescing) is modelled by `jsOrInt` /
    `jsOrStr`, which treat `0` resp. `""` as absent, like the source does.
  * The external LLM ("Oracle") responses are modelled as explicit sum
    types covering the three cases the source distinguishes: a deferred
    `request_for_claude` answer, an unparseable answer, and a successfully
    parsed JSON payload.
  * Timestamps (`Date.now()`, `completedAt`) are modelled as integer
    milliseconds; `daysDiff ≤ 7` becomes `now - completedAt ≤ 604800000`.
-/

namespace Forest

/-- JS `v || d` for numbers: `undefined` and `0` are falsy. -/
def jsOrInt (v : Option Int) (d : Int) : Int :=
  match v with
  | none => d
  | some x => if x = 0 then d else x

/-- JS `v || d` for strings: `undefined` and `""` are falsy. -/
def jsOrStr (v : Option String) (d : String) : String :=
  match v with
  | none => d
  | some s => if s = "" then d else s

/-- ASCII whitespace, the fragment of JS `\s` exercised by this code base. -/
def isSpaceChar (c : Char) : Bool :=
  c = ' ' || c = '\t' || c = '\n' || c = '\r'

/-- Numeric value of a decimal digit character. -/
def charVal (c : Char) : Nat := c.toNat - 48

/-- `parseInt` on a run of decimal digit characters. -/
def digitsVal (ds : List Char) : Nat :=
  ds.foldl (fun a c => 10 * a + charVal c) 0

/-- Case-insensitive prefix test: the pattern is given lower-case, the
subject characters are lowered before comparison (ASCII, matching the
`i` flag of the source regex on its ASCII pattern). -/
def isPrefixCI : List Char → List Char → Bool
  | [], _ => true
  | _ :: _, [] => false
  | p :: ps, c :: cs => (p = c.toLower) && isPrefixCI ps cs

/-- The unit alternation `(minute|hour|min|hr)` of the source regex in
`parseTimeToMinutes`, tried in the regex's order at the head of `s`.
Returns `some true` when the captured unit makes the value an hour count
(`unit.startsWith('hour') || unit.startsWith('hr')`), `some false` for a
minute unit, `none` when no alternative matches. -/
def unitAt (s : List Char) : Option Bool :=
  if isPrefixCI ['m', 'i', 'n', 'u', 't', 'e'] s then some false
  else if isPrefixCI ['h', 'o', 'u', 'r'] s then some true
  else if isPrefixCI ['m', 'i', 'n'] s then some false
  else if isPrefixCI ['h', 'r'] s then some true
  else none

/-- First match of the source regex `(\d+)\s*(minute|hour|min|hr)` (with
the `i` flag), scanning left to right.  At a digit position the engine's
greedy `\d+` takes the maximal digit run and `\s*` the maximal whitespace
run (shorter choices can never make the unit alternation match, since no
alternative starts with a digit or whitespace); on failure the scan resumes
one character further, exactly like the backtracking engine.  Returns the
captured value and whether the unit is an hour unit. -/
def findTimeMatch : List Char → Option (Nat × Bool)
  | [] => none
  | c :: cs =>
    if c.isDigit then
      match unitAt (((c :: cs).dropWhile Char.isDigit).dropWhile isSpaceChar) with
      | some isHour => some (digitsVal ((c :: cs).takeWhile Char.isDigit), isHour)
      | none => findTimeMatch cs
    else findTimeMatch cs

/-- `TaskIntelligence.parseTimeToMinutes` (src/unnamed/part_005):
no match returns the default 30; an hour unit multiplies by 60. -/
def parseTimeToMinutes (s : String) : Nat :=
  match findTimeMatch s.data with
  | none => 30
  | some (v, isHour) => if isHour then v * 60 else v

/-- Decimal digit character, as produced by JS number-to-string
conversion for a digit value `d < 10`. -/
def decDigit (d : Nat) : Char :=
  if d = 0 then '0' else if d = 1 then '1' else if d = 2 then '2'
  else if d = 3 then '3' else if d = 4 then '4' else if d = 5 then '5'
  else if d = 6 then '6' else if d = 7 then '7' else if d = 8 then '8'
  else '9'

/-- Fuel-driven decimal expansion (most significant digit first); the fuel
is always sufficient at the call site in `natChars`. -/
def natCharsAux : Nat → Nat → List Char
  | 0, _ => []
  | fuel + 1, n =>
    if n < 10 then [decDigit n]
    else natCharsAux fuel (n / 10) ++ [decDigit (n % 10)]

/-- Decimal digit string of a natural number. -/
def natChars (n : Nat) : List Char := natCharsAux (n + 1) n

/-- JS template-literal stringification of a non-negative integer. -/
def natToString (n : Nat) : String := ⟨natChars n⟩

/-- JS template-literal stringification of an integer. -/
def intToString (i : Int) : String :=
  if i < 0 then "-" ++ natToString i.natAbs else natToString i.natAbs

/-- A frontier node (task) of the persisted roadmap document, with the
fields read or written by `TaskIntelligence` and `HtaTreeBuilder`.
Optional fields model properties that may be absent on a JS object. -/
structure TaskNode where
  id : String := ""
  title : String := ""
  description : String := ""
  branch : String := ""
  difficulty : Option Int := none
  priority : Option Int := none
  duration : Option String := none
  prerequisites : List String := []
  completed : Bool := false
  generated : Bool := false
  opportunityType : Option String := none
  learningOutcome : Option String := none
  deriving Repr, DecidableEq

/-- Ids of completed nodes (`completedNodeIds` set in
`selectOptimalTask`, `completedNodeIds` array in
`getAvailableTasksCount`). -/
def completedNodeIds (nodes : List TaskNode) : List String :=
  (nodes.filter (fun n => n.completed)).map (fun n => n.id)

/-- Titles of completed nodes (`nodesByTitle` map in `selectOptimalTask`;
the `nodes.some(n => n.title === prereq && n.completed)` test in
`getAvailableTasksCount`). -/
def completedNodeTitles (nodes : List TaskNode) : List String :=
  (nodes.filter (fun n => n.completed)).map (fun n => n.title)

/-- One prerequisite reference is satisfied when it names the id or the
title of a completed node. -/
def prereqMet (nodes : List TaskNode) (p : String) : Bool :=
  decide (p ∈ completedNodeIds nodes) || decide (p ∈ completedNodeTitles nodes)

/-- All prerequisites of a node are satisfied (the
`node.prerequisites && node.prerequisites.length > 0` guard in the source
is the vacuous-truth case of `List.all`). -/
def prereqsMet (nodes : List TaskNode) (t : TaskNode) : Bool :=
  t.prerequisites.all (prereqMet nodes)

/-- Minutes of a task: `parseTimeToMinutes(node.duration || '30 minutes')`. -/
def taskMinutes (t : TaskNode) : Nat :=
  parseTimeToMinutes (jsOrStr t.duration "30 minutes")

/-- Admission filter of `selectOptimalTask` (src/unnamed/part_005):
not completed, prerequisites met, and not more than 120% of the
available time (`taskMinutes > timeInMinutes * 1.2` is the rejection
test; `5*a ≤ 6*b` is its exact rational form). -/
def isCandidate (nodes : List TaskNode) (timeAvailable : String) (t : TaskNode) : Bool :=
  !t.completed && prereqsMet nodes t &&
    decide (5 * taskMinutes t ≤ 6 * parseTimeToMinutes timeAvailable)

/-- The `availableTasks` array accumulated by `selectOptimalTask`. -/
def availableTasksOf (nodes : List TaskNode) (timeAvailable : String) : List TaskNode :=
  nodes.filter (isCandidate nodes timeAvailable)

/-- Lower-case a string (ASCII, as exercised by this code base). -/
def strToLower (s : String) : String := ⟨s.data.map Char.toLower⟩

/-- Case-sensitive prefix test on character lists. -/
def listStartsWith : List Char → List Char → Bool
  | [], _ => true
  | _ :: _, [] => false
  | p :: ps, c :: cs => (p = c) && listStartsWith ps cs

/-- JS `hay.includes(pat)`: contiguous substring test. -/
def containsSub (hay pat : List Char) : Bool :=
  match hay with
  | [] => pat.isEmpty
  | _ :: cs => listStartsWith pat hay || containsSub cs pat

/-- String form of `containsSub`. -/
def strIncludes (hay pat : String) : Bool := containsSub hay.data pat.data

/-- The generic stopword list of `isDomainRelevant`. -/
def domainStopWords : List String := ["research", "learning", "study", "project"]

/-- JS `str.split(sep)` for a one-character separator: splits at every
occurrence, keeping empty pieces. -/
def splitOnChar (sep : Char) : List Char → List (List Char)
  | [] => [[]]
  | c :: cs =>
    let r := splitOnChar sep cs
    if c = sep then [] :: r
    else
      match r with
      | t :: ts => (c :: t) :: ts
      | [] => [[c]]

/-- `TaskIntelligence.isDomainRelevant` (src/unnamed/part_005): the task
text shares a >3-letter non-stopword keyword with the goal/domain text
(`domainText.split(' ')`). -/
def isDomainRelevant (t : TaskNode) (goal domain : String) : Bool :=
  let taskText := strToLower (t.title ++ " " ++ t.description)
  let domainText := strToLower (goal ++ " " ++ domain)
  let domainKeywords :=
    ((splitOnChar ' ' domainText.data).filter (fun w => w.length > 3)).filter
      (fun w => !(domainStopWords.contains (⟨w⟩ : String)))
  domainKeywords.any (fun kw => containsSub taskText.data kw)

/-- JS word character class `\w` = `[A-Za-z0-9_]`. -/
def isWordChar (c : Char) : Bool := c.isAlpha || c.isDigit || c = '_'

/-- Maximal runs of word characters, i.e. the non-empty tokens of
`context.split(/\W+/)` (empty tokens are discarded later by the
`length > 3` filter in the source, so they are not modelled).  The fuel
is always sufficient at the call site in `wordRuns`. -/
def wordRunsAux : Nat → List Char → List (List Char)
  | 0, _ => []
  | _, [] => []
  | fuel + 1, c :: cs =>
    if isWordChar c then
      (c :: cs.takeWhile isWordChar) :: wordRunsAux fuel (cs.dropWhile isWordChar)
    else wordRunsAux fuel cs

/-- Word tokens of a character list. -/
def wordRuns (l : List Char) : List (List Char) := wordRunsAux l.length l

/-- `TaskIntelligence.isContextRelevant` for a string context (the only
shape the verified claims exercise): >3-letter tokens of the lowered
context are searched in the task text. -/
def isContextRelevant (t : TaskNode) (context : String) : Bool :=
  let taskText := strToLower (t.title ++ " " ++ t.description)
  let keywords := (wordRuns (strToLower context).data).filter (fun w => w.length > 3)
  keywords.any (fun kw => containsSub taskText.data kw)

/-- `TaskIntelligence.calculateTaskScore` (src/unnamed/part_005).  The
tier tests `timeInMinutes >= taskDuration * 0.8` and `… * 0.5` are the
exact rational comparisons `4*d ≤ 5*t` and `d ≤ 2*t`. -/
def calculateTaskScore (t : TaskNode) (energyLevel : Int) (timeInMinutes : Nat)
    (contextFromMemory goal domain : String) : Int :=
  let base := jsOrInt t.priority 200
  let taskDifficulty := jsOrInt t.difficulty 3
  let energyMatch : Int := 5 - ((energyLevel - taskDifficulty).natAbs : Int)
  let s1 := base + energyMatch * 20
  let taskDuration := taskMinutes t
  let timeFit : Int :=
    if taskDuration ≤ timeInMinutes then 50
    else if 4 * taskDuration ≤ 5 * timeInMinutes then 20
    else if taskDuration ≤ 2 * timeInMinutes then -20
    else -100
  let s2 := s1 + timeFit
  let s3 := s2 + (if isDomainRelevant t goal domain then 100 else 0)
  let s4 := s3 +
    (if contextFromMemory = "" then 0
     else if isContextRelevant t contextFromMemory then 50 else 0)
  let s5 := s4 + (if t.opportunityType = some "breakthrough_amplification" then 100 else 0)
  s5 + (if t.generated then 25 else 0)

/-- The single-pass best-score search of `selectOptimalTask`: strictly
greater scores replace the running best, so ties keep the earlier task
(`bestScore` starts at `-Infinity`, so the first candidate always wins
against the initial state). -/
def pickBest : List (TaskNode × Int) → Option (TaskNode × Int)
  | [] => none
  | p :: ps => some (ps.foldl (fun q r => if r.2 > q.2 then r else q) p)

/-- `TaskIntelligence.selectOptimalTask` (src/unnamed/part_005), returning
the chosen task together with its score (the source spreads the score
onto the returned task object). -/
def selectOptimalTask (nodes : List TaskNode) (energyLevel : Int)
    (timeAvailable contextFromMemory goal domain : String) :
    Option (TaskNode × Int) :=
  let avail := availableTasksOf nodes timeAvailable
  let timeInMinutes := parseTimeToMinutes timeAvailable
  pickBest (avail.map
    (fun t => (t, calculateTaskScore t energyLevel timeInMinutes contextFromMemory goal domain)))

/-- One entry of `learningHistory.completedTopics`.  `completedAt` is the
completion timestamp in integer milliseconds (the source stores an ISO
string and converts with `new Date(...)`). -/
structure Completion where
  completedAt : Int
  energyAfter : Option Int := none
  deriving Repr, DecidableEq

/-- The trailing-7-day window filter of `detectStuckIndicators`:
`(Date.now() - completedAt) / 86400000 ≤ 7` in exact integer form. -/
def recentCompletions (now : Int) (history : List Completion) : List Completion :=
  history.filter (fun c => now - c.completedAt ≤ 604800000)

/-- Sum of `c.energyAfter || 3` over the recent window. -/
def engagementSum (now : Int) (history : List Completion) : Int :=
  ((recentCompletions now history).map (fun c => jsOrInt c.energyAfter 3)).sum

/-- The `avgEngagement < 2.5` test of `detectStuckIndicators`, where
`avgEngagement = sum / max(count, 1)`; in exact rational form
`2 * sum < 5 * max(count, 1)`. -/
def lowEngagementFlag (now : Int) (history : List Completion) : Bool :=
  2 * engagementSum now history < 5 * (max (recentCompletions now history).length 1 : Int)

/-- `TaskIntelligence.getAvailableTasksCount` (src/unnamed/part_005):
tasks that are not completed and whose prerequisites each resolve to a
completed node's id or title — the same resolution rule as the admission
filter of `selectOptimalTask`, without the time cutoff. -/
def getAvailableTasksCount (nodes : List TaskNode) : Nat :=
  (nodes.filter (fun n => !n.completed && prereqsMet nodes n)).length

/-- `TaskIntelligence.detectStuckIndicators` (src/unnamed/part_005); the
three `indicators.push` sites in source order. -/
def detectStuckIndicators (nodes : List TaskNode) (history : List Completion)
    (now : Int) : List String :=
  (if getAvailableTasksCount nodes = 0 then ["no_available_tasks"] else []) ++
  (if (recentCompletions now history).length = 0 then ["no_recent_progress"] else []) ++
  (if lowEngagementFlag now history then ["low_engagement"] else [])

/-- Positive keyword list of `analyzeFeedback`. -/
def positiveWords : List String :=
  ["great", "interesting", "progress", "excellent", "perfect", "energized",
   "proud", "good", "working"]

/-- Negative keyword list of `analyzeFeedback`. -/
def negativeWords : List String :=
  ["boring", "stuck", "difficult", "difficulty", "frustrated", "overwhelmed",
   "bad", "problem"]

/-- Sentiment classification of `TaskIntelligence.analyzeFeedback`
(src/unnamed/part_005): counts of keyword occurrences in the lowered
feedback; strictly more positive hits is positive, strictly more negative
hits is negative, otherwise neutral; empty feedback is neutral. -/
def feedbackSentiment (feedback : String) : String :=
  if feedback = "" then "neutral"
  else
    let fl := strToLower feedback
    let pc := (positiveWords.filter (fun w => strIncludes fl w)).length
    let nc := (negativeWords.filter (fun w => strIncludes fl w)).length
    if pc > nc then "positive" else if nc > pc then "negative" else "neutral"

/-- The analysis record built by `analyzeCurrentStrategy`
(`recommendedEvolution` is recomputed by `determineEvolutionStrategy`
where needed, exactly as the source assigns it from the same record). -/
structure StrategyAnalysis where
  completedTasks : Nat
  totalTasks : Nat
  availableTasks : Nat
  stuckIndicators : List String
  sentiment : String
  deriving Repr, DecidableEq

/-- `TaskIntelligence.analyzeCurrentStrategy` (src/unnamed/part_005). -/
def analyzeCurrentStrategy (nodes : List TaskNode) (history : List Completion)
    (now : Int) (feedback : String) : StrategyAnalysis :=
  { completedTasks := (nodes.filter (fun n => n.completed)).length
    totalTasks := nodes.length
    availableTasks := getAvailableTasksCount nodes
    stuckIndicators := detectStuckIndicators nodes history now
    sentiment := feedbackSentiment feedback }

/-- `TaskIntelligence.determineEvolutionStrategy` (src/unnamed/part_005):
the decision chain in source order, first match wins. -/
def determineEvolutionStrategy (a : StrategyAnalysis) : String :=
  if "no_available_tasks" ∈ a.stuckIndicators then "generate_new_tasks"
  else if "low_engagement" ∈ a.stuckIndicators then "increase_variety_and_interest"
  else if a.sentiment = "negative" then "address_user_concerns"
  else if a.availableTasks < 3 then "expand_task_frontier"
  else "optimize_existing_sequence"

/-- The project configuration fields read by the task generators
(`config.goal`, `config.specific_interests`). -/
structure ProjectConfigM where
  goal : Option String := none
  specificInterests : List String := []
  deriving Repr, DecidableEq

/-- `TaskIntelligence.generateExplorationTasks` (src/unnamed/part_005). -/
def generateExplorationTasks (config : ProjectConfigM) (startId : Nat) : List TaskNode :=
  let goal := jsOrStr config.goal "learning"
  [{ id := "explore_" ++ toString startId
     title := "Explore: What's Next in " ++ goal
     description := "Open exploration of next steps and possibilities"
     difficulty := some 1
     duration := some "15 minutes"
     branch := "exploration"
     priority := some 250
     generated := true
     learningOutcome := some "Clarity on next learning directions" },
   { id := "sample_" ++ toString (startId + 1)
     title := "Sample: Try Something Different"
     description := "Experiment with a new approach or technique"
     difficulty := some 2
     duration := some "25 minutes"
     branch := "experimentation"
     priority := some 240
     generated := true
     learningOutcome := some "Experience with alternative approaches" }]

/-- The indexed loop body of `generateInterestBasedTasks`. -/
def interestTasksAux (startId : Nat) : Nat → List String → List TaskNode
  | _, [] => []
  | i, interest :: rest =>
    { id := "interest_" ++ toString (startId + i)
      title := "Focus: " ++ interest
      description := "Dedicated work on your specific interest: " ++ interest
      difficulty := some 2
      duration := some "30 minutes"
      branch := "interests"
      priority := some 300
      generated := true
      learningOutcome := some ("Progress in " ++ interest) } ::
        interestTasksAux startId (i + 1) rest

/-- `TaskIntelligence.generateInterestBasedTasks` (src/unnamed/part_005):
one task per configured interest, at most 3. -/
def generateInterestBasedTasks (config : ProjectConfigM) (startId : Nat) : List TaskNode :=
  interestTasksAux startId 0 (config.specificInterests.take 3)

/-- `TaskIntelligence.generateConcernAddressingTasks` (src/unnamed/part_005). -/
def generateConcernAddressingTasks (feedbackOriginal : String) (startId : Nat) : List TaskNode :=
  [{ id := "address_" ++ toString startId
     title := "Address: Current Challenge"
     description := "Work on overcoming the challenge: " ++ feedbackOriginal
     difficulty := some 1
     duration := some "20 minutes"
     branch := "problem_solving"
     priority := some 280
     generated := true
     learningOutcome := some "Resolution of current learning obstacle" }]

/-- `TaskIntelligence.generateProgressiveTasks` (src/unnamed/part_005):
build on the last completed task, or fall back to exploration tasks. -/
def generateProgressiveTasks (nodes : List TaskNode) (startId : Nat) : List TaskNode :=
  match (nodes.filter (fun n => n.completed)).getLast? with
  | none => generateExplorationTasks { goal := some "general learning" } startId
  | some lastCompleted =>
    [{ id := "build_" ++ toString startId
       title := "Build On: " ++ lastCompleted.title
       description := "Continue building on the foundation from " ++ lastCompleted.title
       difficulty := some (min 5 (jsOrInt lastCompleted.difficulty 3 + 1))
       duration := some "35 minutes"
       branch := if lastCompleted.branch = "" then "progression" else lastCompleted.branch
       prerequisites := [lastCompleted.id]
       priority := some 270
       generated := true
       learningOutcome := some ("Advanced understanding beyond " ++ lastCompleted.title) }]

/-- `TaskIntelligence.generateBalancedTasks` (src/unnamed/part_005):
intentionally empty — external generation required. -/
def generateBalancedTasks (_config : ProjectConfigM) (_nodes : List TaskNode)
    (_startId : Nat) : List TaskNode := []

/-- `TaskIntelligence.generateSmartNextTasks` (src/unnamed/part_005):
dispatch on `analysis.recommendedEvolution` (which
`analyzeCurrentStrategy` sets to `determineEvolutionStrategy` of the same
record), then limit to 5 new tasks.  `feedback` is the raw feedback text
(`analysis.userFeedback.original`). -/
def generateSmartNextTasks (config : ProjectConfigM) (nodes : List TaskNode)
    (analysis : StrategyAnalysis) (feedback : String) : List TaskNode :=
  let taskId := nodes.length + 3000
  let strategy := determineEvolutionStrategy analysis
  (if strategy = "generate_new_tasks" then generateExplorationTasks config taskId
   else if strategy = "increase_variety_and_interest" then
     generateInterestBasedTasks config taskId
   else if strategy = "address_user_concerns" then
     generateConcernAddressingTasks feedback taskId
   else if strategy = "expand_task_frontier" then generateProgressiveTasks nodes taskId
   else generateBalancedTasks config nodes taskId).take 5

/-- The analysis/generation pipeline of `TaskIntelligence.evolveStrategy`
(src/unnamed/part_005): analyse the current roadmap, then synthesize the
new tasks that the operation appends to `frontierNodes`. -/
def evolveStrategyPipeline (config : ProjectConfigM) (nodes : List TaskNode)
    (history : List Completion) (now : Int) (feedback : String) :
    StrategyAnalysis × List TaskNode :=
  let analysis := analyzeCurrentStrategy nodes history now feedback
  (analysis, generateSmartNextTasks config nodes analysis feedback)

/-- The frontier update of `evolveStrategy`: new tasks are concatenated
onto `frontierNodes` when any were generated. -/
def evolveFrontier (nodes newTasks : List TaskNode) : List TaskNode :=
  if newTasks.length > 0 then nodes ++ newTasks else nodes

/-- A sub-branch record produced by `generateSubBranches`. -/
structure SubBranch where
  id : String := ""
  title : String := ""
  description : String := ""
  deriving Repr, DecidableEq

/-- A strategic branch record produced by `generateStrategicBranches`
(src/unnamed/part_004). -/
structure Branch where
  id : String := ""
  title : String := ""
  priority : String := "high"
  completed : Bool := false
  description : String := ""
  expected_duration : String := ""
  subBranches : List SubBranch := []
  deriving Repr, DecidableEq

/-- `HtaTreeBuilder.estimateDuration` (src/unnamed/part_004). -/
def estimateDuration (knowledgeLevel : Nat) : String :=
  if knowledgeLevel ≤ 2 then "0-3 months"
  else if knowledgeLevel ≤ 4 then "2-6 months"
  else if knowledgeLevel ≤ 6 then "4-9 months"
  else "6-12+ months"

/-- The character class `[a-z0-9]` of the slug regex. -/
def isSlugKeep (c : Char) : Bool :=
  ('a' ≤ c && c ≤ 'z') || c.isDigit

/-- Global regex replacement of maximal runs of characters satisfying `p`
by the single character `r` (JS `str.replace(/X+/g, r)`).  The fuel is
always sufficient at the call site in `replaceRuns`. -/
def replaceRunsAux (p : Char → Bool) (r : Char) : Nat → List Char → List Char
  | 0, _ => []
  | _, [] => []
  | fuel + 1, c :: cs =>
    if p c then r :: replaceRunsAux p r fuel (cs.dropWhile p)
    else c :: replaceRunsAux p r fuel cs

/-- Run replacement on a character list. -/
def replaceRuns (p : Char → Bool) (r : Char) (l : List Char) : List Char :=
  replaceRunsAux p r l.length l

/-- JS `str.replace(/^_|_$/g, '')`: remove one leading and one trailing
underscore. -/
def stripEdgeUnderscores (l : List Char) : List Char :=
  let l1 := match l with
    | '_' :: rest => rest
    | other => other
  match l1.getLast? with
  | some '_' => l1.dropLast
  | _ => l1

/-- The id slug of a focus-area branch:
`` `focus_${area.toLowerCase().replace(/[^a-z0-9]+/g, '_')}` ``
post-processed by `.replace(/_+/g, '_').replace(/^_|_$/g, '')`. -/
def focusBranchId (area : String) : String :=
  let inner := replaceRuns (fun c => !isSlugKeep c) '_' (strToLower area).data
  let whole := ("focus_").data ++ inner
  ⟨stripEdgeUnderscores (replaceRuns (fun c => c = '_') '_' whole)⟩

/-- JS `s.charAt(0).toUpperCase() + s.slice(1)` (ASCII upper-casing). -/
def capFirst (s : String) : String :=
  match s.data with
  | [] => ""
  | c :: cs => ⟨c.toUpper :: cs⟩

/-- One branch built from an explicit focus area in
`generateStrategicBranches`; `subFor` models the (fallible)
`generateSubBranches` oracle call keyed by the branch title, with
failures already collapsed to `[]` by the source's `catch`. -/
def focusBranch (knowledgeLevel : Nat) (subFor : String → List SubBranch)
    (raw : String) : Branch :=
  let area := raw.trim
  { id := focusBranchId area
    title := capFirst area
    priority := "high"
    completed := false
    description := "Roadmap for developing expertise in " ++ area
    expected_duration := estimateDuration knowledgeLevel
    subBranches := subFor (capFirst area) }

/-- Outcome of the Oracle call `requestIntelligence('hta-domain-generation')`
as the source distinguishes it: a `request_for_claude` deferral, a
response whose text fails `JSON.parse` (or parses to a non-array), or a
successfully parsed array of domain strings. -/
inductive OracleListResponse where
  | deferred : OracleListResponse
  | unparseable : OracleListResponse
  | structured : List String → OracleListResponse
  deriving Repr, DecidableEq

/-- The `domains` array after the parse attempt (empty on deferral or
parse failure). -/
def domainsOf : OracleListResponse → List String
  | .structured ds => ds
  | _ => []

/-- The indexed loop building `domain_${idx+1}` branches from the domain
list in `generateStrategicBranches`. -/
def domainBranchesAux (knowledgeLevel : Nat) (subFor : String → List SubBranch) :
    Nat → List String → List Branch
  | _, [] => []
  | idx, d :: rest =>
    { id := "domain_" ++ toString idx
      title := d
      priority := "high"
      completed := false
      description := "Roadmap for " ++ d
      expected_duration := estimateDuration knowledgeLevel
      subBranches := subFor d } :: domainBranchesAux knowledgeLevel subFor (idx + 1) rest

/-- `HtaTreeBuilder.generateStrategicBranches` (src/unnamed/part_004):
explicit focus areas take precedence; otherwise the Oracle's domain list
is used, falling back to the single generic domain `"General"` when it is
deferred, unparseable or empty. -/
def generateStrategicBranches (focusAreas : List String) (knowledgeLevel : Nat)
    (resp : OracleListResponse) (subFor : String → List SubBranch) : List Branch :=
  if focusAreas.length > 0 then
    focusAreas.map (focusBranch knowledgeLevel subFor)
  else
    let domains0 := domainsOf resp
    let domains := if domains0.isEmpty then ["General"] else domains0
    domainBranchesAux knowledgeLevel subFor 1 domains

/-- The `duration` property of a task object proposed by the Oracle:
a JSON number, a JSON string, or absent. -/
inductive RawDuration where
  | num : Int → RawDuration
  | str : String → RawDuration
  | absent : RawDuration
  deriving Repr, DecidableEq

/-- A task object parsed from the Oracle's JSON response in
`generateBranchNodesAI`. -/
structure RawTask where
  title : String := ""
  description : String := ""
  difficulty : Option Int := none
  duration : RawDuration := .absent
  prerequisites : List String := []
  opportunityType : Option String := none
  deriving Repr, DecidableEq

/-- Outcome of the Oracle call `requestIntelligence('hta-task-generation')`. -/
inductive OracleTasksResponse where
  | deferred : OracleTasksResponse
  | unparseable : OracleTasksResponse
  | structured : List RawTask → OracleTasksResponse
  deriving Repr, DecidableEq

/-- The `tasks` array of `generateBranchNodesAI` after response handling:
a deferral queues a pending Claude request and yields no tasks; a parse
failure or an empty array falls back to `generateFallbackTasks`, which
returns `[]`. -/
def tasksFromOracle : OracleTasksResponse → List RawTask
  | .deferred => []
  | .unparseable => []
  | .structured ts => if ts.isEmpty then [] else ts

/-- The per-band post-processing step of `generateBranchNodesAI`
(src/unnamed/part_004 lines 298-324): difficulty is forced/clamped per
knowledge-level band, and the duration is capped only when it is a
number (`typeof t.duration === 'number'`). -/
def clampTask (knowledgeLevel : Nat) (t : RawTask) : RawTask :=
  if knowledgeLevel ≤ 2 then
    { t with difficulty := some 1
             duration := match t.duration with
               | .num n => .num (min 25 n)
               | d => d }
  else if knowledgeLevel ≤ 4 then
    { t with difficulty := some (min 2 (max 1 (jsOrInt t.difficulty 1)))
             duration := match t.duration with
               | .num n => .num (min 45 n)
               | d => d }
  else if knowledgeLevel ≤ 6 then
    { t with difficulty := some (min 3 (max 1 (jsOrInt t.difficulty 2)))
             duration := match t.duration with
               | .num n => .num (min 60 n)
               | d => d }
  else
    { t with difficulty := some (min 5 (max 1 (jsOrInt t.difficulty 3))) }

/-- The node `duration` string:
`typeof t.duration === 'number' ? \`${t.duration} minutes\` : (t.duration || '30 minutes')`. -/
def rawDurationToString : RawDuration → String
  | .num n => intToString n ++ " minutes"
  | .str s => if s = "" then "30 minutes" else s
  | .absent => "30 minutes"

/-- The node-mapping step of `generateBranchNodesAI`. -/
def toFrontierNode (branchId : String) (nodeId : Nat) (t : RawTask) : TaskNode :=
  { id := "node_" ++ toString nodeId
    title := t.title
    description := t.description
    branch := branchId
    difficulty := some (jsOrInt t.difficulty 1)
    priority := some (200 + jsOrInt t.difficulty 1 * 10)
    duration := some (rawDurationToString t.duration)
    prerequisites := t.prerequisites
    completed := false
    opportunityType := match t.opportunityType with
      | some "" => none
      | o => o }

/-- The indexed `filtered.map((t, i) => …)` of `generateBranchNodesAI`,
with ids `node_${startNodeId + i}`. -/
def toFrontierNodes (branchId : String) : Nat → List RawTask → List TaskNode
  | _, [] => []
  | i, t :: ts => toFrontierNode branchId i t :: toFrontierNodes branchId (i + 1) ts

/-- `HtaTreeBuilder.generateBranchNodesAI` (src/unnamed/part_004): obtain
candidate tasks from the Oracle response, drop candidates whose title
matches an already-completed title, clamp per knowledge band, and map to
frontier nodes. -/
def generateBranchNodesAI (branchId : String) (knowledgeLevel : Nat)
    (completedTasks : List String) (startNodeId : Nat)
    (resp : OracleTasksResponse) : List TaskNode :=
  let tasks := tasksFromOracle resp
  let filtered :=
    (tasks.filter (fun t => !decide (t.title ∈ completedTasks))).map
      (clampTask knowledgeLevel)
  toFrontierNodes branchId startNodeId filtered

/-! ## Helper lemmas -/

lemma mem_availableTasksOf {nodes : List TaskNode} {ta : String} {t : TaskNode} :
    t ∈ availableTasksOf nodes ta ↔
      t ∈ nodes ∧ t.completed = false ∧ prereqsMet nodes t = true ∧
        5 * taskMinutes t ≤ 6 * parseTimeToMinutes ta := by
  simp [availableTasksOf, isCandidate, List.mem_filter, Bool.and_eq_true,
    Bool.not_eq_true', decide_eq_true_eq, and_assoc]

lemma prereqMet_iff {nodes : List TaskNode} {p : String} :
    prereqMet nodes p = true ↔
      ∃ c ∈ nodes, c.completed = true ∧ (c.id = p ∨ c.title = p) := by
  simp only [prereqMet, Bool.or_eq_true, decide_eq_true_eq, completedNodeIds,
    completedNodeTitles, List.mem_map, List.mem_filter]
  constructor
  · rintro (⟨c, ⟨hc, hcomp⟩, hid⟩ | ⟨c, ⟨hc, hcomp⟩, htitle⟩)
    · exact ⟨c, hc, hcomp, Or.inl hid⟩
    · exact ⟨c, hc, hcomp, Or.inr htitle⟩
  · rintro ⟨c, hc, hcomp, hid | htitle⟩
    · exact Or.inl ⟨c, ⟨hc, hcomp⟩, hid⟩
    · exact Or.inr ⟨c, ⟨hc, hcomp⟩, htitle⟩

lemma prereqsMet_iff {nodes : List TaskNode} {t : TaskNode} :
    prereqsMet nodes t = true ↔ ∀ p ∈ t.prerequisites, prereqMet nodes p = true := by
  simp [prereqsMet, List.all_eq_true]

/-! ## C1: prerequisite admission -/

/-- C1: `selectOptimalTask` admits a frontier node as a selection
candidate only if it is not completed and every prerequisite reference
equals the id or the title of some completed node of the same document; a
node one of whose prerequisites matches no completed node is never
admitted. -/
theorem c1_prerequisite_admission :
    (∀ (nodes : List TaskNode) (ta : String) (t : TaskNode),
      t ∈ availableTasksOf nodes ta →
        t.completed = false ∧
          ∀ p ∈ t.prerequisites,
            ∃ c ∈ nodes, c.completed = true ∧ (c.id = p ∨ c.title = p)) ∧
    (∀ (nodes : List TaskNode) (ta : String) (t : TaskNode),
      (∃ p ∈ t.prerequisites, ∀ c ∈ nodes, c.completed = true → ¬(c.id = p ∨ c.title = p)) →
        t ∉ availableTasksOf nodes ta) := by
  constructor
  · intro nodes ta t ht
    obtain ⟨-, hcomp, hpre, -⟩ := mem_availableTasksOf.mp ht
    refine ⟨hcomp, fun p hp => ?_⟩
    exact prereqMet_iff.mp (prereqsMet_iff.mp hpre p hp)
  · rintro nodes ta t ⟨p, hp, hbad⟩ ht
    obtain ⟨-, -, hpre, -⟩ := mem_availableTasksOf.mp ht
    obtain ⟨c, hc, hcomp, hmatch⟩ := prereqMet_iff.mp (prereqsMet_iff.mp hpre p hp)
    exact hbad c hc hcomp hmatch

/-- A completed node with id `"A"`, an admissible node depending on it,
and a node depending on a dangling prerequisite, for the C1 witness. -/
def doneNodeA : TaskNode :=
  { id := "A", title := "Task A", completed := true }

def needsANode : TaskNode :=
  { id := "t1", title := "Task 1", prerequisites := ["A"] }

def needsMissingNode : TaskNode :=
  { id := "t2", title := "Task 2", prerequisites := ["unknown"] }

def c1Nodes : List TaskNode := [doneNodeA, needsANode, needsMissingNode]

/-- Witness for C1 at a concrete document: the node whose prerequisite
`"A"` names a completed node is admitted and the first conjunct applies to
it; the node with a dangling prerequisite is rejected by the second. -/
theorem c1_prerequisite_admission_witness :
    (needsANode ∈ availableTasksOf c1Nodes "30 minutes" ∧ needsANode.completed = false) ∧
    needsMissingNode ∉ availableTasksOf c1Nodes "30 minutes" := by
  refine ⟨⟨by decide,
    (c1_prerequisite_admission.1 c1Nodes "30 minutes" needsANode (by decide)).1⟩, ?_⟩
  refine c1_prerequisite_admission.2 c1Nodes "30 minutes" needsMissingNode ⟨"unknown", by decide, ?_⟩
  decide

/-! ## C2: hard time cutoff -/

def thirteenMinTask : TaskNode := { id := "t13", duration := some "13 minutes" }

def twelveMinTask : TaskNode := { id := "t12", duration := some "12 minutes" }

def cutoffNodes : List TaskNode := [thirteenMinTask, twelveMinTask]

/-- C2: a task is admitted only if its parsed duration is at most 1.2
times the parsed available time (`5*d ≤ 6*t` in exact form); with 10
minutes available, a 13-minute task is inadmissible and a 12-minute task
is admissible. -/
theorem c2_time_cutoff :
    (∀ (nodes : List TaskNode) (ta : String) (t : TaskNode),
      t ∈ availableTasksOf nodes ta →
        5 * taskMinutes t ≤ 6 * parseTimeToMinutes ta) ∧
    thirteenMinTask ∉ availableTasksOf cutoffNodes "10 minutes" ∧
    twelveMinTask ∈ availableTasksOf cutoffNodes "10 minutes" := by
  refine ⟨fun nodes ta t ht => (mem_availableTasksOf.mp ht).2.2.2, by decide, by decide⟩

/-- Witness for C2: the general cutoff bound applied to the admitted
12-minute task at 10 available minutes. -/
theorem c2_time_cutoff_witness :
    twelveMinTask ∈ availableTasksOf cutoffNodes "10 minutes" ∧
      5 * taskMinutes twelveMinTask ≤ 6 * parseTimeToMinutes "10 minutes" :=
  ⟨by decide, c2_time_cutoff.1 cutoffNodes "10 minutes" twelveMinTask (by decide)⟩

/-! ## C9: unparseable durations default to 30 minutes -/

/-- C9: `parseTimeToMinutes` returns 30 for every string in which the
regex `(\d+)\s*(minute|hour|min|hr)` finds no match (e.g. `""`, `"soon"`,
`"half an hour"`); consequently a missing or unparseable task duration is
treated as exactly 30 minutes by `taskMinutes`, the quantity used both in
the admission cutoff and in the time-fit scoring tiers. -/
theorem c9_parse_default_30 :
    (∀ s : String, findTimeMatch s.data = none → parseTimeToMinutes s = 30) ∧
    parseTimeToMinutes "" = 30 ∧
    parseTimeToMinutes "soon" = 30 ∧
    parseTimeToMinutes "half an hour" = 30 ∧
    (∀ t : TaskNode, t.duration = none → taskMinutes t = 30) ∧
    (∀ (t : TaskNode) (s : String),
      t.duration = some s → findTimeMatch s.data = none → taskMinutes t = 30) := by
  have hbase : ∀ s : String, findTimeMatch s.data = none → parseTimeToMinutes s = 30 := by
    intro s h
    unfold parseTimeToMinutes
    rw [h]
  refine ⟨hbase, by decide, by decide, by decide, ?_, ?_⟩
  · intro t h
    unfold taskMinutes
    rw [h]
    decide
  · intro t s hdur hmatch
    unfold taskMinutes
    rw [hdur]
    show parseTimeToMinutes (if s = "" then "30 minutes" else s) = 30
    by_cases hs : s = ""
    · rw [if_pos hs]; decide
    · rw [if_neg hs]; exact hbase s hmatch

/-- Witness for C9: a node whose duration string `"whenever"` has no
regex match is costed at 30 minutes. -/
theorem c9_parse_default_30_witness :
    ({ id := "w", duration := some "whenever" } : TaskNode).duration = some "whenever" ∧
      taskMinutes { id := "w", duration := some "whenever" } = 30 :=
  ⟨rfl, c9_parse_default_30.2.2.2.2.2 { id := "w", duration := some "whenever" } "whenever" rfl
    (by decide)⟩

/-! ## C4: the worked selection scenario

TaskA (difficulty 3, 25 min, priority 200, domain-relevant) and TaskB
(difficulty 1, 5 min, priority 200, not domain-relevant), scored at
energyLevel 3 with "30 minutes" available and no memory context.  With the
source's energy term `20 × (5 − |energyLevel − difficulty|)`, TaskA's
energy contribution is `20 × 5 = 100`, so its total is
`200 + 100 + 50 + 100 = 450`, not the `390 = 200 + 40 + 50 + 100`
asserted by the claim; TaskB scores `200 + 60 + 50 + 0 = 310` and the
selector does return TaskA. -/

def scenarioGoal : String := "piano practice"

def scenarioDomain : String := "piano"

def taskA : TaskNode :=
  { id := "task_a", title := "Practice piano chords", description := "Play three chords",
    difficulty := some 3, priority := some 200, duration := some "25 minutes" }

def taskB : TaskNode :=
  { id := "task_b", title := "Quick rest", description := "Take a short break",
    difficulty := some 1, priority := some 200, duration := some "5 minutes" }

/-- C4 counterexample: at the claim's own inputs, the computed total score
of TaskA is 450, not 390 — the claimed energy-match contribution of 40
contradicts the claimed formula `20 × (5 − |3 − 3|) = 100`. -/
theorem c4_scenario_counterexample :
    isDomainRelevant taskA scenarioGoal scenarioDomain = true ∧
    isDomainRelevant taskB scenarioGoal scenarioDomain = false ∧
    calculateTaskScore taskA 3 (parseTimeToMinutes "30 minutes") "" scenarioGoal scenarioDomain
      = 450 ∧
    calculateTaskScore taskA 3 (parseTimeToMinutes "30 minutes") "" scenarioGoal scenarioDomain
      ≠ 390 := by
  refine ⟨by decide, by decide, by decide, by decide⟩

/-- C4 amended: in the claim's scenario the computed totals are 450 for
TaskA (200 base + 100 energy + 50 time + 100 domain) and 310 for TaskB
(200 + 60 + 50 + 0), and `selectOptimalTask` returns TaskA. -/
theorem c4_scenario_amended :
    calculateTaskScore taskA 3 (parseTimeToMinutes "30 minutes") "" scenarioGoal scenarioDomain
      = 450 ∧
    calculateTaskScore taskB 3 (parseTimeToMinutes "30 minutes") "" scenarioGoal scenarioDomain
      = 310 ∧
    selectOptimalTask [taskA, taskB] 3 "30 minutes" "" scenarioGoal scenarioDomain
      = some (taskA, 450) := by
  refine ⟨by decide, by decide, by decide⟩

/-! ## C5, C7, C10: strategy evolution -/

lemma mem_indicators_no_available {nodes : List TaskNode} {history : List Completion}
    {now : Int} :
    "no_available_tasks" ∈ detectStuckIndicators nodes history now ↔
      getAvailableTasksCount nodes = 0 := by
  by_cases h1 : getAvailableTasksCount nodes = 0 <;>
  by_cases h2 : (recentCompletions now history).length = 0 <;>
  by_cases h3 : lowEngagementFlag now history <;>
  simp [detectStuckIndicators, h1, h2, h3]

lemma mem_indicators_low_engagement {nodes : List TaskNode} {history : List Completion}
    {now : Int} :
    "low_engagement" ∈ detectStuckIndicators nodes history now ↔
      lowEngagementFlag now history = true := by
  by_cases h1 : getAvailableTasksCount nodes = 0 <;>
  by_cases h2 : (recentCompletions now history).length = 0 <;>
  by_cases h3 : lowEngagementFlag now history <;>
  simp [detectStuckIndicators, h1, h2, h3]

lemma mem_indicators_no_recent {nodes : List TaskNode} {history : List Completion}
    {now : Int} :
    "no_recent_progress" ∈ detectStuckIndicators nodes history now ↔
      (recentCompletions now history).length = 0 := by
  by_cases h1 : getAvailableTasksCount nodes = 0 <;>
  by_cases h2 : (recentCompletions now history).length = 0 <;>
  by_cases h3 : lowEngagementFlag now history <;>
  simp [detectStuckIndicators, h1, h2, h3]

/-- The decision table of spec §4.4, stated from the spec's words for the
refinement half of claim C5: first match wins, in the order
no-available-tasks, low engagement, negative sentiment, fewer than 3
admissible tasks, otherwise a no-op diagnosis. -/
def specDecisionTable (admissibleCount : Nat) (lowEngagement negativeSentiment : Bool) :
    String :=
  if admissibleCount = 0 then "generate_new_tasks"
  else if lowEngagement then "increase_variety_and_interest"
  else if negativeSentiment then "address_user_concerns"
  else if admissibleCount < 3 then "expand_task_frontier"
  else "optimize_existing_sequence"

/-- C5: the evolution diagnosis of the code equals the spec's decision
table evaluated in the spec's priority order, and on a roadmap with 0
admissible tasks the diagnosis is `generate_new_tasks` and at least one
new task is produced, each carrying `generated = true`. -/
theorem c5_evolution_decision_table :
    (∀ (nodes : List TaskNode) (history : List Completion) (now : Int) (feedback : String),
      determineEvolutionStrategy (analyzeCurrentStrategy nodes history now feedback) =
        specDecisionTable (getAvailableTasksCount nodes) (lowEngagementFlag now history)
          (decide (feedbackSentiment feedback = "negative"))) ∧
    (∀ (config : ProjectConfigM) (nodes : List TaskNode) (history : List Completion)
        (now : Int) (feedback : String),
      getAvailableTasksCount nodes = 0 →
        determineEvolutionStrategy (analyzeCurrentStrategy nodes history now feedback) =
          "generate_new_tasks" ∧
        1 ≤ (generateSmartNextTasks config nodes
              (analyzeCurrentStrategy nodes history now feedback) feedback).length ∧
        ∀ t ∈ generateSmartNextTasks config nodes
              (analyzeCurrentStrategy nodes history now feedback) feedback,
          t.generated = true) := by
  have htable : ∀ (nodes : List TaskNode) (history : List Completion) (now : Int)
      (feedback : String),
      determineEvolutionStrategy (analyzeCurrentStrategy nodes history now feedback) =
        specDecisionTable (getAvailableTasksCount nodes) (lowEngagementFlag now history)
          (decide (feedbackSentiment feedback = "negative")) := by
    intro nodes history now feedback
    simp only [determineEvolutionStrategy, specDecisionTable, analyzeCurrentStrategy,
      mem_indicators_no_available, mem_indicators_low_engagement, decide_eq_true_eq]
  refine ⟨htable, ?_⟩
  intro config nodes history now feedback hcount
  have hstrat : determineEvolutionStrategy (analyzeCurrentStrategy nodes history now feedback) =
      "generate_new_tasks" := by
    rw [htable nodes history now feedback, specDecisionTable, if_pos hcount]
  refine ⟨hstrat, ?_, ?_⟩ <;>
    simp only [generateSmartNextTasks, hstrat, if_pos, generateExplorationTasks,
      List.take, List.length_cons, List.length_nil, reduceIte]
  · omega
  · intro t ht
    rcases List.mem_cons.mp ht with h | h
    · rw [h]
    · rcases List.mem_cons.mp h with h2 | h2
      · rw [h2]
      · simp at h2

/-- Witness for C5: the empty roadmap has 0 admissible tasks; the
diagnosis is `generate_new_tasks` and the two exploration tasks it yields
are generated. -/
theorem c5_evolution_decision_table_witness :
    getAvailableTasksCount ([] : List TaskNode) = 0 ∧
      determineEvolutionStrategy (analyzeCurrentStrategy [] [] 0 "") = "generate_new_tasks" ∧
      1 ≤ (generateSmartNextTasks {} [] (analyzeCurrentStrategy [] [] 0 "") "").length :=
  ⟨by decide, (c5_evolution_decision_table.2 {} [] [] 0 "" (by decide)).1,
    (c5_evolution_decision_table.2 {} [] [] 0 "" (by decide)).2.1⟩

lemma exploration_tasks_fresh {config : ProjectConfigM} {startId : Nat} {t : TaskNode}
    (h : t ∈ generateExplorationTasks config startId) :
    t.generated = true ∧ 200 < jsOrInt t.priority 200 := by
  rcases List.mem_cons.mp h with h1 | h1
  · rw [h1]; exact ⟨rfl, by norm_num [jsOrInt]⟩
  · rcases List.mem_cons.mp h1 with h2 | h2
    · rw [h2]; exact ⟨rfl, by norm_num [jsOrInt]⟩
    · simp at h2

lemma interest_tasks_fresh {startId : Nat} :
    ∀ (i : Nat) (l : List String) (t : TaskNode), t ∈ interestTasksAux startId i l →
      t.generated = true ∧ 200 < jsOrInt t.priority 200 := by
  intro i l
  induction l generalizing i with
  | nil => intro t ht; simp [interestTasksAux] at ht
  | cons interest rest ih =>
    intro t ht
    rcases List.mem_cons.mp ht with h1 | h1
    · rw [h1]; exact ⟨rfl, by norm_num [jsOrInt]⟩
    · exact ih (i + 1) t h1

lemma concern_tasks_fresh {feedback : String} {startId : Nat} {t : TaskNode}
    (h : t ∈ generateConcernAddressingTasks feedback startId) :
    t.generated = true ∧ 200 < jsOrInt t.priority 200 := by
  rcases List.mem_cons.mp h with h1 | h1
  · rw [h1]; exact ⟨rfl, by norm_num [jsOrInt]⟩
  · simp at h1

lemma progressive_tasks_fresh {nodes : List TaskNode} {startId : Nat} {t : TaskNode}
    (h : t ∈ generateProgressiveTasks nodes startId) :
    t.generated = true ∧ 200 < jsOrInt t.priority 200 := by
  unfold generateProgressiveTasks at h
  rcases hl : (nodes.filter (fun n => n.completed)).getLast? with - | last
  · rw [hl] at h
    exact exploration_tasks_fresh h
  · rw [hl] at h
    rcases List.mem_cons.mp h with h1 | h1
    · rw [h1]; exact ⟨rfl, by norm_num [jsOrInt]⟩
    · simp at h1

/-- C7: each invocation of the evolve-strategy pipeline appends at most 5
synthesized tasks, and every one of them carries `generated = true` and
an effective base priority strictly above the generator default of 200. -/
theorem c7_new_task_budget_and_priority :
    ∀ (config : ProjectConfigM) (nodes : List TaskNode) (analysis : StrategyAnalysis)
      (feedback : String),
      (generateSmartNextTasks config nodes analysis feedback).length ≤ 5 ∧
      ∀ t ∈ generateSmartNextTasks config nodes analysis feedback,
        t.generated = true ∧ 200 < jsOrInt t.priority 200 := by
  intro config nodes analysis feedback
  constructor
  · simp only [generateSmartNextTasks]
    split_ifs <;> simp [List.length_take]
  · intro t ht
    simp only [generateSmartNextTasks] at ht
    split_ifs at ht <;> have hmem := List.take_subset 5 _ ht
    · exact exploration_tasks_fresh hmem
    · exact interest_tasks_fresh 0 _ t hmem
    · exact concern_tasks_fresh hmem
    · exact progressive_tasks_fresh hmem
    · simp [generateBalancedTasks] at hmem

/-- The first exploration task appended at the concrete stalled
configuration of the C7 witness. -/
def c7SampleTask : TaskNode :=
  { id := "explore_3000"
    title := "Explore: What's Next in learning"
    description := "Open exploration of next steps and possibilities"
    difficulty := some 1
    duration := some "15 minutes"
    branch := "exploration"
    priority := some 250
    generated := true
    learningOutcome := some "Clarity on next learning directions" }

/-- Witness for C7 at a concrete stalled configuration: the budget bound
holds, and the first appended exploration task is generated with
priority 250 > 200. -/
theorem c7_new_task_budget_and_priority_witness :
    (generateSmartNextTasks {} [] (analyzeCurrentStrategy [] [] 0 "") "").length ≤ 5 ∧
      c7SampleTask.generated = true ∧ 200 < jsOrInt c7SampleTask.priority 200 :=
  ⟨(c7_new_task_budget_and_priority {} [] (analyzeCurrentStrategy [] [] 0 "") "").1,
    (c7_new_task_budget_and_priority {} [] (analyzeCurrentStrategy [] [] 0 "") "").2
      c7SampleTask (by decide)⟩

/-- C10: with zero completions in the trailing 7-day window the stuck
detector reports both `no_recent_progress` and `low_engagement` (the mean
post-completion energy of the empty window is 0 < 2.5), so any roadmap
that still has an admissible task is diagnosed
`increase_variety_and_interest` regardless of feedback. -/
theorem c10_empty_window_low_engagement :
    ∀ (nodes : List TaskNode) (history : List Completion) (now : Int) (feedback : String),
      recentCompletions now history = [] →
        ("no_recent_progress" ∈ detectStuckIndicators nodes history now ∧
          "low_engagement" ∈ detectStuckIndicators nodes history now) ∧
        (1 ≤ getAvailableTasksCount nodes →
          determineEvolutionStrategy (analyzeCurrentStrategy nodes history now feedback) =
            "increase_variety_and_interest") := by
  intro nodes history now feedback hrecent
  have hlen : (recentCompletions now history).length = 0 := by rw [hrecent]; rfl
  have hflag : lowEngagementFlag now history = true := by
    unfold lowEngagementFlag engagementSum
    rw [hrecent]
    decide
  refine ⟨⟨mem_indicators_no_recent.mpr hlen, mem_indicators_low_engagement.mpr hflag⟩, ?_⟩
  intro hcount
  have hno : ¬ "no_available_tasks" ∈ detectStuckIndicators nodes history now := by
    rw [mem_indicators_no_available]
    omega
  have hlow : "low_engagement" ∈ detectStuckIndicators nodes history now :=
    mem_indicators_low_engagement.mpr hflag
  simp only [determineEvolutionStrategy, analyzeCurrentStrategy]
  rw [if_neg hno, if_pos hlow]

/-- A completion far outside the 7-day window, and a roadmap with one
admissible task, for the C10 witness. -/
def staleCompletion : Completion := { completedAt := 0, energyAfter := some 5 }

/-- Witness for C10 at a concrete stale history: the window filter is
empty, both indicators fire, and the diagnosis ignores the positive
feedback text. -/
theorem c10_empty_window_low_engagement_witness :
    recentCompletions 1000000000000 [staleCompletion] = [] ∧
      "no_recent_progress" ∈ detectStuckIndicators [{ id := "x" }] [staleCompletion]
        1000000000000 ∧
      "low_engagement" ∈ detectStuckIndicators [{ id := "x" }] [staleCompletion]
        1000000000000 ∧
      determineEvolutionStrategy
        (analyzeCurrentStrategy [{ id := "x" }] [staleCompletion] 1000000000000 "great") =
        "increase_variety_and_interest" :=
  ⟨by decide,
    (c10_empty_window_low_engagement [{ id := "x" }] [staleCompletion] 1000000000000 "great"
      (by decide)).1.1,
    (c10_empty_window_low_engagement [{ id := "x" }] [staleCompletion] 1000000000000 "great"
      (by decide)).1.2,
    (c10_empty_window_low_engagement [{ id := "x" }] [staleCompletion] 1000000000000 "great"
      (by decide)).2 (by decide)⟩

/-! ## C6: decomposition always yields branches -/

lemma domainBranchesAux_length (kl : Nat) (subFor : String → List SubBranch) :
    ∀ (idx : Nat) (ds : List String),
      (domainBranchesAux kl subFor idx ds).length = ds.length := by
  intro idx ds
  induction ds generalizing idx with
  | nil => rfl
  | cons d rest ih => simp [domainBranchesAux, ih]

lemma domainBranchesAux_titles (kl : Nat) (subFor : String → List SubBranch) :
    ∀ (idx : Nat) (ds : List String),
      (domainBranchesAux kl subFor idx ds).map Branch.title = ds := by
  intro idx ds
  induction ds generalizing idx with
  | nil => rfl
  | cons d rest ih => simp [domainBranchesAux, ih]

/-- C6: `generateStrategicBranches` never returns an empty branch list;
with explicit focus areas it yields exactly one branch per area, and with
no focus areas and no usable Oracle domains (deferred, unparseable or
empty) it yields exactly the single generic `"General"` branch. -/
theorem c6_always_at_least_one_branch :
    ∀ (focusAreas : List String) (kl : Nat) (resp : OracleListResponse)
      (subFor : String → List SubBranch),
      generateStrategicBranches focusAreas kl resp subFor ≠ [] ∧
      (focusAreas ≠ [] →
        (generateStrategicBranches focusAreas kl resp subFor).length = focusAreas.length) ∧
      (focusAreas = [] → domainsOf resp = [] →
        (generateStrategicBranches focusAreas kl resp subFor).map Branch.title
          = ["General"]) := by
  intro focusAreas kl resp subFor
  cases focusAreas with
  | cons a rest =>
    refine ⟨by simp [generateStrategicBranches], fun _ => ?_, fun h => by simp at h⟩
    simp [generateStrategicBranches]
  | nil =>
    have hgen : generateStrategicBranches [] kl resp subFor =
        domainBranchesAux kl subFor 1
          (if (domainsOf resp).isEmpty then ["General"] else domainsOf resp) := by
      simp [generateStrategicBranches]
    refine ⟨?_, fun h => absurd rfl h, fun _ hdom => ?_⟩
    · rw [hgen]
      intro hempty
      have hlen := domainBranchesAux_length kl subFor 1
        (if (domainsOf resp).isEmpty then ["General"] else domainsOf resp)
      rw [hempty] at hlen
      cases hds : domainsOf resp with
      | nil => rw [hds] at hlen; simp at hlen
      | cons d rest => rw [hds] at hlen; simp at hlen
    · rw [hgen, hdom]
      simp [domainBranchesAux_titles]

/-- A sub-branch oracle that always fails (collapsed to `[]` by the
source's `catch`), for the C6 witness. -/
def noSubBranches : String → List SubBranch := fun _ => []

/-- Witness for C6 at concrete inputs: a deferred Oracle with no focus
areas yields the single `"General"` branch, and explicit focus areas
yield one branch each. -/
theorem c6_always_at_least_one_branch_witness :
    (([] : List String) = [] ∧ domainsOf .deferred = [] ∧
      (generateStrategicBranches [] 1 .deferred noSubBranches).map Branch.title
        = ["General"]) ∧
    (generateStrategicBranches ["web dev", "ui"] 1 .deferred noSubBranches).length = 2 :=
  ⟨⟨rfl, rfl, (c6_always_at_least_one_branch [] 1 .deferred noSubBranches).2.2 rfl rfl⟩,
    (c6_always_at_least_one_branch ["web dev", "ui"] 1 .deferred noSubBranches).2.1
      (by decide)⟩

/-! ## C8: idempotent regeneration -/

lemma clampTask_title (kl : Nat) (t : RawTask) : (clampTask kl t).title = t.title := by
  unfold clampTask
  split_ifs <;> rfl

lemma mem_toFrontierNodes {branchId : String} {node : TaskNode} :
    ∀ (i : Nat) (ts : List RawTask), node ∈ toFrontierNodes branchId i ts →
      ∃ t ∈ ts, ∃ j, node = toFrontierNode branchId j t := by
  intro i ts
  induction ts generalizing i with
  | nil => intro h; simp [toFrontierNodes] at h
  | cons t rest ih =>
    intro h
    rcases List.mem_cons.mp h with h1 | h1
    · exact ⟨t, by simp, i, h1⟩
    · obtain ⟨t', ht', j, hj⟩ := ih (i + 1) h1
      exact ⟨t', by simp [ht'], j, hj⟩

/-- C8: per-branch task generation never returns a node whose title
matches the title of an already-completed node of the existing document,
regardless of the Oracle output. -/
theorem c8_idempotent_regeneration :
    ∀ (existing : List TaskNode) (branchId : String) (kl startId : Nat)
      (resp : OracleTasksResponse) (node : TaskNode),
      node ∈ generateBranchNodesAI branchId kl (completedNodeTitles existing) startId resp →
      ∀ e ∈ existing, e.completed = true → node.title ≠ e.title := by
  intro existing branchId kl startId resp node hnode e he hcomp heq
  obtain ⟨t', ht', j, hj⟩ := mem_toFrontierNodes _ _ hnode
  obtain ⟨t0, ht0, rfl⟩ := List.mem_map.mp ht'
  have hfilter := List.mem_filter.mp ht0
  have hnot : t0.title ∉ completedNodeTitles existing := by
    have := hfilter.2
    simpa using this
  have htitle : node.title = t0.title := by
    rw [hj]
    show (toFrontierNode branchId j (clampTask kl t0)).title = t0.title
    rw [show (toFrontierNode branchId j (clampTask kl t0)).title = (clampTask kl t0).title
      from rfl, clampTask_title]
  exact hnot (by
    rw [← htitle, heq]
    exact List.mem_map.mpr ⟨e, List.mem_filter.mpr ⟨he, by simp [hcomp]⟩, rfl⟩)

/-- An existing document with a completed task titled "X" and an Oracle
response re-proposing "X" alongside "Y", for the C8 witness. -/
def completedX : TaskNode := { id := "n1", title := "X", completed := true }

def c8Resp : OracleTasksResponse :=
  .structured [{ title := "X", description := "again" }, { title := "Y", description := "new" }]

def c8SurvivorNode : TaskNode := toFrontierNode "b" 1 (clampTask 1 { title := "Y", description := "new" })

/-- Witness for C8: regenerating against the document containing
completed "X" yields only the "Y" node, whose title differs from "X". -/
theorem c8_idempotent_regeneration_witness :
    c8SurvivorNode ∈ generateBranchNodesAI "b" 1 (completedNodeTitles [completedX]) 1 c8Resp ∧
      completedX.completed = true ∧ c8SurvivorNode.title ≠ completedX.title :=
  ⟨by decide, rfl,
    c8_idempotent_regeneration [completedX] "b" 1 1 c8Resp c8SurvivorNode (by decide)
      completedX (by decide) rfl⟩

/-! ## C3: level banding — decimal string lemmas -/

lemma decDigit_isDigit (d : Nat) : (decDigit d).isDigit = true := by
  unfold decDigit
  split_ifs <;> decide

lemma charVal_decDigit {d : Nat} (h : d < 10) : charVal (decDigit d) = d := by
  interval_cases d <;> decide

lemma digitsVal_append_singleton (xs : List Char) (c : Char) :
    digitsVal (xs ++ [c]) = 10 * digitsVal xs + charVal c := by
  simp [digitsVal, List.foldl_append]

lemma natCharsAux_spec :
    ∀ (fuel n : Nat), n < fuel →
      natCharsAux fuel n ≠ [] ∧ (∀ c ∈ natCharsAux fuel n, c.isDigit = true) ∧
        digitsVal (natCharsAux fuel n) = n := by
  intro fuel
  induction fuel with
  | zero => intro n hn; omega
  | succ fuel ih =>
    intro n hn
    by_cases h10 : n < 10
    · have hvals : natCharsAux (fuel + 1) n = [decDigit n] := by
        unfold natCharsAux
        rw [if_pos h10]
      rw [hvals]
      refine ⟨by simp, ?_, ?_⟩
      · intro c hc
        rw [List.mem_singleton.mp hc]
        exact decDigit_isDigit n
      · show digitsVal ([] ++ [decDigit n]) = n
        rw [digitsVal_append_singleton, charVal_decDigit h10]
        simp [digitsVal]
    · have hdivlt : n / 10 < fuel := by
        have h1 : n / 10 < n := Nat.div_lt_self (by omega) (by omega)
        omega
      obtain ⟨hne, hdig, hval⟩ := ih (n / 10) hdivlt
      have hvals : natCharsAux (fuel + 1) n =
          natCharsAux fuel (n / 10) ++ [decDigit (n % 10)] := by
        conv_lhs => unfold natCharsAux
        rw [if_neg h10]
      rw [hvals]
      refine ⟨by simp [hne], ?_, ?_⟩
      · intro c hc
        rcases List.mem_append.mp hc with h | h
        · exact hdig c h
        · rw [List.mem_singleton.mp h]
          exact decDigit_isDigit _
      · rw [digitsVal_append_singleton, hval, charVal_decDigit (Nat.mod_lt n (by omega))]
        omega

lemma natChars_ne_nil (n : Nat) : natChars n ≠ [] :=
  (natCharsAux_spec (n + 1) n (Nat.lt_succ_self n)).1

lemma natChars_digits (n : Nat) : ∀ c ∈ natChars n, c.isDigit = true :=
  (natCharsAux_spec (n + 1) n (Nat.lt_succ_self n)).2.1

lemma digitsVal_natChars (n : Nat) : digitsVal (natChars n) = n :=
  (natCharsAux_spec (n + 1) n (Nat.lt_succ_self n)).2.2

lemma takeWhile_append_of_all {p : Char → Bool} :
    ∀ (xs : List Char) (y : Char) (ys : List Char), (∀ c ∈ xs, p c = true) → p y = false →
      (xs ++ y :: ys).takeWhile p = xs ∧ (xs ++ y :: ys).dropWhile p = y :: ys := by
  intro xs
  induction xs with
  | nil =>
    intro y ys _ hy
    constructor
    · simp [List.takeWhile_cons, hy]
    · simp [List.dropWhile_cons, hy]
  | cons a as ih =>
    intro y ys hall hy
    have ha : p a = true := hall a (by simp)
    obtain ⟨h1, h2⟩ := ih y ys (fun c hc => hall c (by simp [hc])) hy
    constructor
    · simp only [List.cons_append, List.takeWhile_cons, ha, if_true, h1]
    · simp only [List.cons_append, List.dropWhile_cons, ha, if_true, h2]

/-- Round trip: the duration strings `\`${m} minutes\`` written by the
node mapper parse back to `m`. -/
lemma parse_natToString_minutes (m : Nat) :
    parseTimeToMinutes (natToString m ++ " minutes") = m := by
  have hdata : (natToString m ++ " minutes").data = natChars m ++ (' ' :: ("minutes").data) := by
    have : (natToString m ++ " minutes").data = (natToString m).data ++ (" minutes").data :=
      String.data_append _ _
    rw [this]
    rfl
  have hne := natChars_ne_nil m
  have hdig := natChars_digits m
  have hval := digitsVal_natChars m
  cases hcs : natChars m with
  | nil => exact absurd hcs hne
  | cons c cs =>
    rw [hcs] at hdig hval
    have hc : c.isDigit = true := hdig c (by simp)
    have hspace : (' ' : Char).isDigit = false := by decide
    obtain ⟨htake, hdrop⟩ :=
      takeWhile_append_of_all (c :: cs) ' ' ("minutes").data hdig hspace
    unfold parseTimeToMinutes
    rw [hdata, hcs]
    have hfind : findTimeMatch ((c :: cs) ++ ' ' :: ("minutes").data)
        = some (digitsVal (c :: cs), false) := by
      show findTimeMatch (c :: (cs ++ ' ' :: ("minutes").data)) = _
      unfold findTimeMatch
      rw [hc, if_pos rfl]
      have hdw : ((c :: (cs ++ ' ' :: ("minutes").data)).dropWhile Char.isDigit).dropWhile
          isSpaceChar = ("minutes").data := by
        rw [show (c :: (cs ++ ' ' :: ("minutes").data)) = (c :: cs) ++ ' ' :: ("minutes").data
          from rfl, hdrop]
        decide
      rw [hdw]
      rw [show unitAt ("minutes").data = some false from by decide]
      rw [show (c :: (cs ++ ' ' :: ("minutes").data)) = (c :: cs) ++ ' ' :: ("minutes").data
        from rfl, htake]
    rw [hfind]
    simpa using hval

lemma natToString_ne_empty (n : Nat) : natToString n ≠ "" := by
  intro h
  have : (natToString n).data = ("" : String).data := by rw [h]
  have hnil : natChars n = [] := this
  exact natChars_ne_nil n hnil

lemma append_minutes_ne_empty (m : Nat) : natToString m ++ " minutes" ≠ "" := by
  intro h
  have hdata : (natToString m).data ++ (" minutes").data = [] := by
    have := String.data_append (natToString m) " minutes"
    rw [h] at this
    exact this.symm
  rcases List.append_eq_nil.mp hdata with ⟨-, h2⟩
  exact absurd h2 (by decide)

/-- An Oracle response proposing a difficulty-5 task whose duration is the
JSON *string* `"120 minutes"` rather than a number. -/
def c3StringResp : OracleTasksResponse :=
  .structured
    [{ title := "T", description := "d", difficulty := some 5, duration := .str "120 minutes" }]

/-- C3 counterexample: at knowledge level 1 the difficulty is indeed
forced to 1, but the string duration `"120 minutes"` bypasses the
`typeof t.duration === 'number'` guard of the 25-minute cap, so the
generated node still costs 120 minutes — the claim's 25-minute bound
fails for this Oracle output. -/
theorem c3_level_banding_counterexample :
    (generateBranchNodesAI "b1" 1 [] 1 c3StringResp).map taskMinutes = [120] ∧
    (generateBranchNodesAI "b1" 1 [] 1 c3StringResp).map TaskNode.difficulty = [some 1] ∧
    ¬ (∀ node ∈ generateBranchNodesAI "b1" 1 [] 1 c3StringResp, taskMinutes node ≤ 25) := by
  refine ⟨by decide, by decide, by decide⟩

/-- C3 amended: for knowledge levels 1–2 every generated node has
difficulty 1, for every Oracle output; and whenever the Oracle supplies
durations as (non-negative) numbers — as the generation prompt requests —
every generated node's parsed duration is at most 25 minutes.  Durations
supplied as strings, or missing (defaulted to "30 minutes"), escape the
cap. -/
theorem c3_level_banding_amended :
    ∀ (kl : Nat), kl ≤ 2 →
    ∀ (branchId : String) (completed : List String) (startId : Nat)
      (resp : OracleTasksResponse),
    (∀ node ∈ generateBranchNodesAI branchId kl completed startId resp,
      node.difficulty = some 1) ∧
    ((∀ t ∈ tasksFromOracle resp, ∃ n : Nat, t.duration = RawDuration.num (n : Int)) →
      ∀ node ∈ generateBranchNodesAI branchId kl completed startId resp,
        taskMinutes node ≤ 25) := by
  intro kl hkl branchId completed startId resp
  have hmem : ∀ node ∈ generateBranchNodesAI branchId kl completed startId resp,
      ∃ t0 ∈ tasksFromOracle resp, ∃ j, node = toFrontierNode branchId j (clampTask kl t0) := by
    intro node hnode
    obtain ⟨t', ht', j, hj⟩ := mem_toFrontierNodes _ _ hnode
    obtain ⟨t0, ht0, rfl⟩ := List.mem_map.mp ht'
    exact ⟨t0, (List.mem_filter.mp ht0).1, j, hj⟩
  constructor
  · intro node hnode
    obtain ⟨t0, -, j, rfl⟩ := hmem node hnode
    have hdiff : (clampTask kl t0).difficulty = some 1 := by
      unfold clampTask
      rw [if_pos hkl]
    show some (jsOrInt (clampTask kl t0).difficulty 1) = some 1
    rw [hdiff]
    norm_num [jsOrInt]
  · intro hnum node hnode
    obtain ⟨t0, ht0, j, rfl⟩ := hmem node hnode
    obtain ⟨n, hn⟩ := hnum t0 ht0
    have hdur : (clampTask kl t0).duration = RawDuration.num (min 25 (n : Int)) := by
      unfold clampTask
      rw [if_pos hkl]
      simp [hn]
    have hmin : (min 25 (n : Int)) = ((min 25 n : Nat) : Int) := by
      simp [Nat.cast_min]
    have hstr : rawDurationToString (clampTask kl t0).duration
        = natToString (min 25 n) ++ " minutes" := by
      rw [hdur]
      show intToString (min 25 (n : Int)) ++ " minutes" = _
      rw [hmin]
      unfold intToString
      rw [if_neg (by simp : ¬ ((min 25 n : Nat) : Int) < 0), Int.natAbs_ofNat]
    have hmins : taskMinutes (toFrontierNode branchId j (clampTask kl t0)) = min 25 n := by
      unfold taskMinutes
      show parseTimeToMinutes
        (if rawDurationToString (clampTask kl t0).duration = "" then "30 minutes"
         else rawDurationToString (clampTask kl t0).duration) = min 25 n
      rw [hstr, if_neg (append_minutes_ne_empty (min 25 n))]
      exact parse_natToString_minutes _
    rw [hmins]
    omega

/-- The same Oracle proposal with a numeric duration of 120, and the node
generated from it, for the C3 witness. -/
def c3NumTask : RawTask :=
  { title := "T", description := "d", difficulty := some 5, duration := .num 120 }

def c3NumResp : OracleTasksResponse := .structured [c3NumTask]

def c3NumNode : TaskNode := toFrontierNode "b1" 1 (clampTask 1 c3NumTask)

/-- Witness for C3 (amended): a numeric duration of 120 proposed at
knowledge level 1 is clamped, and the generated node parses to 25
minutes with difficulty 1. -/
theorem c3_level_banding_amended_witness :
    c3NumNode ∈ generateBranchNodesAI "b1" 1 [] 1 c3NumResp ∧
      c3NumNode.difficulty = some 1 ∧ taskMinutes c3NumNode ≤ 25 :=
  ⟨by decide,
    (c3_level_banding_amended 1 (by decide) "b1" [] 1 c3NumResp).1 c3NumNode (by decide),
    (c3_level_banding_amended 1 (by decide) "b1" [] 1 c3NumResp).2
      (by
        intro t ht
        have hts : t = c3NumTask := by
          simpa [tasksFromOracle, c3NumResp] using ht
        exact ⟨120, by rw [hts]; rfl⟩)
      c3NumNode (by decide)⟩

end Forest
